import Mathlib

/-!
Verification development for the Emergency Demand Intelligence Platform.

The repository ships a React dashboard; the component under study is
`PredictDemand.jsx`, the client of the forecasting pipeline described in the
specification.  JavaScript values exchanged with the HTTP collaborator are
modelled by the inductive `JVal` below; JavaScript numbers are modelled by
exact rationals.  Pipeline components that live behind the HTTP boundary
(ConfigValidator, DecompositionModel, ResultAssembler) are modelled from the
specification text, as marked on each such definition.
-/

/-- A JSON value as exchanged with the HTTP collaborator.  Numbers are
modelled as exact rationals; object fields are an association list in
insertion order, mirroring JavaScript object literals. -/
inductive JVal where
  | null : JVal
  | bool (b : Bool) : JVal
  | num (q : ℚ) : JVal
  | str (s : String) : JVal
  | arr (xs : List JVal) : JVal
  | obj (fields : List (String × JVal)) : JVal
deriving Repr

/-- Field lookup on a JSON value: `some v` when the value is an object having
the key (first occurrence), `none` otherwise — the model of the JavaScript
member access `o.k` yielding `undefined` on a missing key or a non-object. -/
def JVal.getField : JVal → String → Option JVal
  | .obj fields, k => fields.lookup k
  | _, _ => none

/-- JavaScript truthiness of a value: `null`/`undefined`, `false`, `0`, and
the empty string are falsy; every array and object (even empty) is truthy. -/
def jsTruthy : JVal → Bool
  | .null => false
  | .bool b => b
  | .num q => q ≠ 0
  | .str s => s ≠ ""
  | .arr _ => true
  | .obj _ => true

/-! ## The component state and the request body

`PredictDemand.jsx` keeps the model parameters in React state hooks
(lines 40–46); `fetchPrediction` (lines 53–97) serializes them into the
request body of the POST to `/api/predict_demand_v2`. -/

/-- The ordered list of candidate extra regressors offered by the UI
(`AVAILABLE_EXTRA_VARS`, PredictDemand.jsx lines 26–33). -/
def AVAILABLE_EXTRA_VARS : List String :=
  [ "age_60_69_ratio",
    "total_population",
    "age_60_69",
    "age_70_79",
    "age_80_84",
    "age_85_plus" ]

/-- The slice of React state of `PredictDemand` that feeds the request body
(useState hooks, PredictDemand.jsx lines 40–46). -/
structure PredictState where
  selectedExtraVars : List String
  growth : String
  yearlySeasonality : Bool
  seasonalityMode : String
  changepointPriorScale : ℚ
  seasonalityPriorScale : ℚ
  regressorPriorScale : ℚ
deriving Repr

/-- The initial state of the component: the useState initializers of
PredictDemand.jsx lines 40–46. -/
def initialPredictState : PredictState :=
  { selectedExtraVars := []
    growth := "linear"
    yearlySeasonality := true
    seasonalityMode := "additive"
    changepointPriorScale := 1/20
    seasonalityPriorScale := 10
    regressorPriorScale := 1/20 }

/-- The JSON request body `fetchPrediction` posts, field by field in source
order (PredictDemand.jsx lines 64–76).  `interval_width` is the literal
`0.95` and `regressor_mode` repeats the seasonality-mode state. -/
def requestBody (s : PredictState) : List (String × JVal) :=
  [ ("extra_vars", .arr (s.selectedExtraVars.map .str)),
    ("growth", .str s.growth),
    ("yearly_seasonality", .bool s.yearlySeasonality),
    ("weekly_seasonality", .bool false),
    ("daily_seasonality", .bool false),
    ("seasonality_mode", .str s.seasonalityMode),
    ("changepoint_prior_scale", .num s.changepointPriorScale),
    ("seasonality_prior_scale", .num s.seasonalityPriorScale),
    ("interval_width", .num (19/20)),
    ("regressor_prior_scale", .num s.regressorPriorScale),
    ("regressor_mode", .str s.seasonalityMode) ]

/-- The eight request fields named by the request contract of the
specification (§6). -/
def specRequestFields : List String :=
  [ "extra_vars", "growth", "yearly_seasonality", "seasonality_mode",
    "changepoint_prior_scale", "seasonality_prior_scale",
    "interval_width", "regressor_prior_scale" ]

/-- Toggling one extra-regressor checkbox (`handleExtraVarChange`,
PredictDemand.jsx lines 172–178): remove the name when present, append it
when absent. -/
def handleExtraVarChange (varName : String) (prev : List String) : List String :=
  if varName ∈ prev then prev.filter (fun v => v ≠ varName)
  else prev ++ [varName]

/-- The selection state after a sequence of checkbox toggles starting from
the initial empty selection. -/
def selectionAfter (toggles : List String) : List String :=
  toggles.foldl (fun acc v => handleExtraVarChange v acc) []

/-! ## The fetch outcome

`fetchPrediction` clears `error` and `result`, performs the POST, and then
either stores `data.data` as the result (when the body reports
`status: "success"`) or throws, which the catch block turns into the
displayed error message (PredictDemand.jsx lines 53–97). -/

/-- The observable outcome of one `fetchPrediction` call: the `result` and
`error` React states after the call settles. -/
structure FetchOutcome where
  result : Option JVal
  error : Option String
deriving Repr

/-- The truthy `message` string of a response body, if any: the model of the
JavaScript `body.message || fallback` idiom, where an absent or empty
message falls through to the fallback.  (Per the response contract of §6,
`message` is a string when present.) -/
def bodyMessage (body : JVal) : Option String :=
  match body.getField "message" with
  | some (.str s) => if s = "" then none else some s
  | _ => none

/-- Whether the body satisfies the strict comparison
`data.status === "success"` of PredictDemand.jsx line 86: true exactly when
the `status` field holds the string `"success"`. -/
def statusIsSuccess (body : JVal) : Bool :=
  match body.getField "status" with
  | some (.str s) => s = "success"
  | _ => false

/-- One `fetchPrediction` call (PredictDemand.jsx lines 53–97) as a function
of the HTTP outcome: `ok` and `statusCode` describe the HTTP response,
`body` its parsed JSON body.  A non-ok response throws
`errorData.message || "HTTP error! status: ..."`; an ok response stores
`data.data` when `data.status === "success"` and otherwise throws
`data.message || "Prediction failed"`.  The catch block stores the thrown
message into the error state; the result state keeps the `null` it was reset
to at the start of the call. -/
def fetchPrediction (ok : Bool) (statusCode : Nat) (body : JVal) : FetchOutcome :=
  if ok = false then
    { result := none
      error := some ((bodyMessage body).getD
        ("HTTP error! status: " ++ toString statusCode)) }
  else if statusIsSuccess body then
    { result := body.getField "data", error := none }
  else
    { result := none
      error := some ((bodyMessage body).getD "Prediction failed") }

/-! ## The chart-layer readers

These functions model exactly which fields of the success payload the
frontend reads.  A reader returns `none` when a field it dereferences is
missing or of the wrong shape, and otherwise the data it binds to the
charts. -/

/-- Read one `historical_actual` element through its `date` and `actual`
fields (`prepareForecastChartData`, PredictDemand.jsx lines 132–135). -/
def readHistPoint (j : JVal) : Option (String × ℚ) :=
  match j.getField "date", j.getField "actual" with
  | some (.str d), some (.num a) => some (d, a)
  | _, _ => none

/-- Read one `forecast_data` element through its `date` and `predicted`
fields (`prepareForecastChartData`, PredictDemand.jsx lines 138–141). -/
def readPredictedPoint (j : JVal) : Option (String × ℚ) :=
  match j.getField "date", j.getField "predicted" with
  | some (.str d), some (.num p) => some (d, p)
  | _, _ => none

/-- Read one `forecast_data` element through its `date` and `upper` fields
(`ciData`, PredictDemand.jsx lines 187–190). -/
def readUpperPoint (j : JVal) : Option (String × ℚ) :=
  match j.getField "date", j.getField "upper" with
  | some (.str d), some (.num u) => some (d, u)
  | _, _ => none

/-- Read one `forecast_data` element through its `date` and `lower` fields
(`ciData`, PredictDemand.jsx lines 192–195). -/
def readLowerPoint (j : JVal) : Option (String × ℚ) :=
  match j.getField "date", j.getField "lower" with
  | some (.str d), some (.num l) => some (d, l)
  | _, _ => none

/-- Read one component element through its `date` and `value` fields
(`prepareComponentChartData`, PredictDemand.jsx lines 164–167, and the
extra-regressor charts, lines 809–812). -/
def readCompPoint (j : JVal) : Option (String × ℚ) :=
  match j.getField "date", j.getField "value" with
  | some (.str d), some (.num v) => some (d, v)
  | _, _ => none

/-- Element-wise reading of a JavaScript array: `some` of the list of read
values when every element reads, `none` when any element fails to. -/
def mapOption {α β : Type} (f : α → Option β) : List α → Option (List β)
  | [] => some []
  | a :: t =>
    match f a, mapOption f t with
    | some b, some bs => some (b :: bs)
    | _, _ => none

/-- The elements of a JSON array, or `none` on any other value. -/
def JVal.asArr : JVal → Option (List JVal)
  | .arr xs => some xs
  | _ => none

/-- The field list of a JSON object, or `none` on any other value. -/
def JVal.asObj : JVal → Option (List (String × JVal))
  | .obj fields => some fields
  | _ => none

/-- `prepareForecastChartData` (PredictDemand.jsx lines 126–155): the
`Actual` series from `historical_actual` via `.date`/`.actual` and the
`Predicted` series from `forecast_data` via `.date`/`.predicted`. -/
def prepareForecastChartData (result : JVal) :
    Option (List (String × ℚ) × List (String × ℚ)) := do
  let ha ← (result.getField "historical_actual").bind JVal.asArr
  let fd ← (result.getField "forecast_data").bind JVal.asArr
  let actualData ← mapOption readHistPoint ha
  let predictedData ← mapOption readPredictedPoint fd
  return (actualData, predictedData)

/-- `ciData` (PredictDemand.jsx lines 181–201): the confidence-band data
from `forecast_data` via `.date`/`.upper` and `.date`/`.lower`. -/
def ciData (result : JVal) :
    Option (List (String × ℚ) × List (String × ℚ)) := do
  let fd ← (result.getField "forecast_data").bind JVal.asArr
  let upperData ← mapOption readUpperPoint fd
  let lowerData ← mapOption readLowerPoint fd
  return (upperData, lowerData)

/-- `prepareComponentChartData` (PredictDemand.jsx lines 158–170): one chart
series from `result.components[componentName]` via `.date`/`.value`. -/
def prepareComponentChartData (result : JVal) (componentName : String) :
    Option (List (String × ℚ)) := do
  let comp ← ((result.getField "components").bind
    (fun c => c.getField componentName)).bind JVal.asArr
  mapOption readCompPoint comp

/-- The extra-regressor charts (PredictDemand.jsx lines 801–814):
`Object.entries(result.components.extra_regressors)`, each entry charted via
`.date`/`.value`. -/
def extraRegressorCharts (result : JVal) :
    Option (List (String × List (String × ℚ))) := do
  let er ← ((result.getField "components").bind
    (fun c => c.getField "extra_regressors")).bind JVal.asObj
  mapOption (fun kv =>
    ((JVal.asArr kv.2).bind (fun xs => mapOption readCompPoint xs)).map
      (fun pts => (kv.1, pts))) er

/-- The cross-validation metric tiles (PredictDemand.jsx lines 548–589):
the frontend reads `cv_metrics.mape`, `.mae`, `.rmse` as numbers and
`.coverage` as an optional number. -/
def readCvMetrics (result : JVal) : Option (ℚ × ℚ × ℚ × Option ℚ) := do
  let cvm ← result.getField "cv_metrics"
  match cvm.getField "mape", cvm.getField "mae", cvm.getField "rmse" with
  | some (.num mape), some (.num mae), some (.num rmse) =>
      match cvm.getField "coverage" with
      | none => some (mape, mae, rmse, none)
      | some (.num c) => some (mape, mae, rmse, some c)
      | some _ => none
  | _, _, _ => none

/-- Round a rational to one decimal digit and render it, the model of the
JavaScript `x.toFixed(1)` over exact numbers (ties round up, as for the
representable inputs of `toFixed`). -/
def toFixed1 (q : ℚ) : String :=
  let n : ℤ := round (q * 10)
  let sign := if n < 0 then "-" else ""
  sign ++ toString (n.natAbs / 10) ++ "." ++ toString (n.natAbs % 10)

/-- The Coverage tile of the cross-validation metrics panel
(PredictDemand.jsx line 585):
`cv_metrics.coverage ? (coverage * 100).toFixed(1) + "%" : "N/A"`.
The conditional tests JavaScript truthiness of the field; per the response
contract the field, when present, is a number, and a non-numeric value is
modelled as absent. -/
def coverageTile (cvm : JVal) : String :=
  match cvm.getField "coverage" with
  | some (.num c) =>
      if jsTruthy (.num c) then toFixed1 (c * 100) ++ "%" else "N/A"
  | _ => "N/A"

/-- The render condition of the Extra Regressors tab
(PredictDemand.jsx lines 611 and 796):
`result.components.extra_regressors && ...` — the tab appears exactly when
that member access yields a truthy value. -/
def showExtraRegressorsTab (result : JVal) : Bool :=
  match (result.getField "components").bind
      (fun c => c.getField "extra_regressors") with
  | some v => jsTruthy v
  | none => false

/-! ## The forecasting pipeline, modelled from the specification

The pipeline behind `/api/predict_demand_v2` is not part of this
repository's sources; only its client is.  The definitions below are
modelled from the specification (§3, §4.1, §4.3, §4.6) and are used to
settle the claims about ConfigValidator, DecompositionModel, and
ResultAssembler. -/

/-- Modelled from the spec: the structured validation failures of
ConfigValidator (§4.1, §7), one distinguishable error per offending
field, with unknown regressor names failing with `UnknownRegressor`. -/
inductive ValidationError where
  | invalidGrowth : ValidationError
  | invalidSeasonalityMode : ValidationError
  | invalidChangepointPriorScale : ValidationError
  | invalidSeasonalityPriorScale : ValidationError
  | invalidRegressorPriorScale : ValidationError
  | invalidIntervalWidth : ValidationError
  | unknownRegressor (name : String) : ValidationError
deriving Repr, DecidableEq

/-- Modelled from the spec: the raw configuration fields as received from
the caller, before validation (§4.1). -/
structure RawConfig where
  growth : String
  seasonalityMode : String
  yearlySeasonality : Bool
  extraRegressorNames : List String
  changepointPriorScale : ℚ
  seasonalityPriorScale : ℚ
  regressorPriorScale : ℚ
  intervalWidth : ℚ
  horizonPeriods : Nat
deriving Repr

/-- Modelled from the spec: the validated `ForecastConfig` value object
(§3). -/
structure ForecastConfig where
  growth : String
  seasonalityMode : String
  yearlySeasonality : Bool
  extraRegressorNames : List String
  changepointPriorScale : ℚ
  seasonalityPriorScale : ℚ
  regressorPriorScale : ℚ
  intervalWidth : ℚ
  horizonPeriods : Nat
deriving Repr

/-- Modelled from the spec: ConfigValidator (§4.1), which is not in this
repository's sources.  `growth` and `seasonality_mode` must be among their
enumerated values, the three prior scales must be positive, `interval_width`
must lie in the open interval (0,1) — rationals are always finite — and
every requested regressor name must be known to SeriesStore, the first
unknown one failing with `UnknownRegressor`. -/
def validateConfig (raw : RawConfig) (knownRegressors : List String) :
    Except ValidationError ForecastConfig :=
  if raw.growth ∉ ["linear", "logistic"] then
    .error .invalidGrowth
  else if raw.seasonalityMode ∉ ["additive", "multiplicative"] then
    .error .invalidSeasonalityMode
  else if ¬ (0 < raw.changepointPriorScale) then
    .error .invalidChangepointPriorScale
  else if ¬ (0 < raw.seasonalityPriorScale) then
    .error .invalidSeasonalityPriorScale
  else if ¬ (0 < raw.regressorPriorScale) then
    .error .invalidRegressorPriorScale
  else if ¬ (0 < raw.intervalWidth ∧ raw.intervalWidth < 1) then
    .error .invalidIntervalWidth
  else
    match raw.extraRegressorNames.find? (fun v => v ∉ knownRegressors) with
    | some v => .error (.unknownRegressor v)
    | none => .ok
        { growth := raw.growth
          seasonalityMode := raw.seasonalityMode
          yearlySeasonality := raw.yearlySeasonality
          extraRegressorNames := raw.extraRegressorNames
          changepointPriorScale := raw.changepointPriorScale
          seasonalityPriorScale := raw.seasonalityPriorScale
          regressorPriorScale := raw.regressorPriorScale
          intervalWidth := raw.intervalWidth
          horizonPeriods := raw.horizonPeriods }

/-- Modelled from the spec: the future horizon dates derived from
`horizon_periods` (§4.2, §4.6) — the `horizon` consecutive periods
immediately after the last historical date.  Dates are abstract period
indices. -/
def futureDates (lastDate : Nat) (horizon : Nat) : List Nat :=
  List.range' (lastDate + 1) horizon

/-- Modelled from the spec: the `forecast_data` date sequence produced by
ResultAssembler (§4.6), which is not in this repository's sources — the
historical dates followed by the future horizon dates.  Because the future
dates begin strictly after the last historical date, this concatenation is
the sorted, deduplicated union the specification requires. -/
def assembleForecastDates (histDates : List Nat) (horizon : Nat) : List Nat :=
  histDates ++ futureDates ((histDates.getLast?).getD 0) horizon

/-- Modelled from the spec: the least-squares linear trend fitted by
DecompositionModel under `growth = linear` (§4.3); the fitting routine is
not in this repository's sources.  Returns the slope and intercept of the
best-fit line through the historical `(date, value)` pairs; a degenerate
design (fewer than two distinct dates) yields a flat line. -/
def fitLinearTrend (hist : List (Nat × ℚ)) : ℚ × ℚ :=
  let n : ℚ := hist.length
  let sx : ℚ := (hist.map (fun p => (p.1 : ℚ))).sum
  let sy : ℚ := (hist.map Prod.snd).sum
  let sxx : ℚ := (hist.map (fun p => (p.1 : ℚ) * (p.1 : ℚ))).sum
  let sxy : ℚ := (hist.map (fun p => (p.1 : ℚ) * p.2)).sum
  let denom := n * sxx - sx * sx
  let slope := if denom = 0 then 0 else (n * sxy - sx * sy) / denom
  let intercept := if n = 0 then 0 else (sy - slope * sx) / n
  (slope, intercept)

/-- The fitted trend value at a date. -/
def trendAt (hist : List (Nat × ℚ)) (d : Nat) : ℚ :=
  (fitLinearTrend hist).1 * (d : ℚ) + (fitLinearTrend hist).2

/-- Modelled from the spec: the residual/noise scale of the historical fit
(§4.3), taken as the mean absolute residual of the fitted trend. -/
def residualScale (hist : List (Nat × ℚ)) : ℚ :=
  (hist.map (fun p => |p.2 - trendAt hist p.1|)).sum / (hist.length : ℚ)

/-- Modelled from the spec: the half-width of the uncertainty interval at a
date (§4.3) — proportional to the residual scale, scaled up as
`interval_width` approaches 1, and widening with the distance of the date
past the last observed historical date. -/
def halfWidthAt (hist : List (Nat × ℚ)) (iw : ℚ) (lastDate d : Nat) : ℚ :=
  (iw / (1 - iw)) * residualScale hist * (1 + ((d - lastDate : Nat) : ℚ))

/-- A forecast point of the result contract: a date with the predicted
value and the lower and upper uncertainty bounds (§3). -/
structure SpecForecastPoint where
  date : Nat
  predicted : ℚ
  lower : ℚ
  upper : ℚ
deriving Repr

/-- Modelled from the spec: the `forecast_data` sequence of the assembled
`ForecastResult` (§4.3, §4.6) — the fitted model evaluated over the
historical dates and the future horizon, each date carrying the predicted
trend value with symmetric uncertainty bounds around it. -/
def specForecastData (hist : List (Nat × ℚ)) (iw : ℚ) (horizon : Nat) :
    List SpecForecastPoint :=
  let lastDate := ((hist.map Prod.fst).getLast?).getD 0
  (assembleForecastDates (hist.map Prod.fst) horizon).map (fun d =>
    let p := trendAt hist d
    let w := halfWidthAt hist iw lastDate d
    { date := d, predicted := p, lower := p - w, upper := p + w })

/-- A component point of the result contract: `{date, value}` (§3). -/
structure CompPoint where
  date : Nat
  value : ℚ
deriving Repr

/-- A component point as the JSON object the HTTP layer would serialize. -/
def CompPoint.toJVal (p : CompPoint) : JVal :=
  .obj [("date", .str (toString p.date)), ("value", .num p.value)]

/-- Modelled from the spec: the contribution series of one selected
regressor (§4.4) — the aligned regressor values scaled by its fitted
coefficient, here regularized to the regressor prior scale; only the shape
of the series matters for the component-presence claims. -/
def regressorContribution (coef : ℚ) (values : List (Nat × ℚ)) :
    List CompPoint :=
  values.map (fun p => { date := p.1, value := coef * p.2 })

/-- Modelled from the spec: the `components` object assembled by
ComponentDecomposer and ResultAssembler (§4.4, §6, §8), which are not in
this repository's sources.  `trend` is always present; `yearly` only when
yearly seasonality is enabled; `extra_regressors` only when at least one
regressor is selected, holding exactly one entry per selected regressor. -/
def assembleComponents (hist : List (Nat × ℚ)) (horizon : Nat)
    (yearlyEnabled : Bool) (yearlyValues : List CompPoint)
    (coef : ℚ) (selected : List (String × List (Nat × ℚ))) : JVal :=
  let dates := assembleForecastDates (hist.map Prod.fst) horizon
  let trendSeries : List CompPoint :=
    dates.map (fun d => { date := d, value := trendAt hist d })
  .obj
    ([("trend", .arr (trendSeries.map CompPoint.toJVal))]
      ++ (if yearlyEnabled then
            [("yearly", .arr (yearlyValues.map CompPoint.toJVal))]
          else [])
      ++ (if selected.isEmpty then []
          else
            [("extra_regressors", .obj (selected.map (fun rv =>
              (rv.1, .arr ((regressorContribution coef rv.2).map
                CompPoint.toJVal)))))]))

/-- A well-formed raw configuration used to exercise the validator. -/
def baseRawConfig : RawConfig :=
  { growth := "linear"
    seasonalityMode := "additive"
    yearlySeasonality := true
    extraRegressorNames := []
    changepointPriorScale := 1
    seasonalityPriorScale := 1
    regressorPriorScale := 1
    intervalWidth := 1/2
    horizonPeriods := 6 }

/-- A minimal success payload of the contract shape. -/
def sampleResult : JVal :=
  .obj
    [ ("historical_actual", .arr
        [.obj [("date", .str "2020-01-01"), ("actual", .num 5)]]),
      ("forecast_data", .arr
        [.obj [("date", .str "2020-01-01"), ("predicted", .num 5),
          ("lower", .num 4), ("upper", .num 6)]]),
      ("components", .obj [("trend", .arr
        [.obj [("date", .str "2020-01-01"), ("value", .num 5)]])]),
      ("cv_metrics", .obj
        [("mape", .num 1), ("mae", .num 1), ("rmse", .num 1)]) ]

/-- The same payload with an additional field the frontend never reads. -/
def sampleResultPadded : JVal :=
  .obj
    [ ("historical_actual", .arr
        [.obj [("date", .str "2020-01-01"), ("actual", .num 5)]]),
      ("forecast_data", .arr
        [.obj [("date", .str "2020-01-01"), ("predicted", .num 5),
          ("lower", .num 4), ("upper", .num 6)]]),
      ("components", .obj [("trend", .arr
        [.obj [("date", .str "2020-01-01"), ("value", .num 5)]])]),
      ("cv_metrics", .obj
        [("mape", .num 1), ("mae", .num 1), ("rmse", .num 1)]),
      ("debug_info", .str "ignored") ]

/-! ## The response contract

`conformsForecastResult` is the spec side of the binding claim: it states,
following §6 of the specification, the exact shape of a success payload
(`ForecastResult` of §3).  The claim is that the chart-layer readers above
succeed on every payload of this shape and read nothing outside the four
contract fields. -/

/-- The object has the key with a string value. -/
def hasStrField (j : JVal) (k : String) : Bool :=
  match j.getField k with
  | some (.str _) => true
  | _ => false

/-- The object has the key with a numeric value. -/
def hasNumField (j : JVal) (k : String) : Bool :=
  match j.getField k with
  | some (.num _) => true
  | _ => false

/-- A `{date, value}` component point of the contract. -/
def isCompPointObj (j : JVal) : Bool :=
  hasStrField j "date" && hasNumField j "value"

/-- The response contract for the success `data` payload, stated from the
specification (§6, §3): `historical_actual` is an array of `{date, actual}`,
`forecast_data` an array of `{date, predicted, lower, upper}`, `components`
has a `trend` series, an optional `yearly` series and an optional
`extra_regressors` mapping of series, and `cv_metrics` has numeric `mape`,
`mae`, `rmse` and an optional numeric `coverage`. -/
def conformsForecastResult (r : JVal) : Bool :=
  match r.getField "historical_actual", r.getField "forecast_data",
      r.getField "components", r.getField "cv_metrics" with
  | some (.arr ha), some (.arr fd), some comps, some cvm =>
      ha.all (fun j => hasStrField j "date" && hasNumField j "actual") &&
      fd.all (fun j => hasStrField j "date" && hasNumField j "predicted" &&
        hasNumField j "lower" && hasNumField j "upper") &&
      (match comps.getField "trend" with
        | some (.arr t) => t.all isCompPointObj
        | _ => false) &&
      (match comps.getField "yearly" with
        | none => true
        | some (.arr y) => y.all isCompPointObj
        | some _ => false) &&
      (match comps.getField "extra_regressors" with
        | none => true
        | some (.obj er) => er.all (fun kv =>
            match kv.2 with
            | .arr xs => xs.all isCompPointObj
            | _ => false)
        | some _ => false) &&
      hasNumField cvm "mape" && hasNumField cvm "mae" &&
      hasNumField cvm "rmse" &&
      (match cvm.getField "coverage" with
        | none => true
        | some (.num _) => true
        | some _ => false)
  | _, _, _, _ => false

/-! ## Helper lemmas -/

/-- Toggling preserves freedom from duplicates. -/
lemma handleExtraVarChange_nodup (v : String) (prev : List String)
    (h : prev.Nodup) : (handleExtraVarChange v prev).Nodup := by
  unfold handleExtraVarChange
  by_cases hv : v ∈ prev
  · simp only [hv, if_true]
    exact h.filter _
  · simp only [hv, if_false]
    rw [List.nodup_append]
    refine ⟨h, List.nodup_singleton v, ?_⟩
    intro x hx hx'
    rw [List.mem_singleton] at hx'
    exact hv (hx' ▸ hx)

/-- Toggling a name drawn from a set keeps the selection inside the set. -/
lemma handleExtraVarChange_subset (v : String) (prev S : List String)
    (hp : ∀ x ∈ prev, x ∈ S) (hv : v ∈ S) :
    ∀ x ∈ handleExtraVarChange v prev, x ∈ S := by
  unfold handleExtraVarChange
  by_cases hmem : v ∈ prev
  · simp only [hmem, if_true]
    intro x hx
    exact hp x (List.mem_of_mem_filter hx)
  · simp only [hmem, if_false]
    intro x hx
    rcases List.mem_append.mp hx with h | h
    · exact hp x h
    · rw [List.mem_singleton] at h
      exact h ▸ hv

/-- Folding a sequence of toggles preserves the selection invariant. -/
lemma foldl_toggle_invariant (toggles : List String) :
    ∀ prev : List String, prev.Nodup →
      (∀ x ∈ prev, x ∈ AVAILABLE_EXTRA_VARS) →
      (∀ v ∈ toggles, v ∈ AVAILABLE_EXTRA_VARS) →
      (toggles.foldl (fun acc v => handleExtraVarChange v acc) prev).Nodup ∧
      ∀ x ∈ toggles.foldl (fun acc v => handleExtraVarChange v acc) prev,
        x ∈ AVAILABLE_EXTRA_VARS := by
  induction toggles with
  | nil => intro prev h1 h2 _; exact ⟨h1, h2⟩
  | cons t ts ih =>
    intro prev h1 h2 h3
    simp only [List.foldl_cons]
    exact ih (handleExtraVarChange t prev)
      (handleExtraVarChange_nodup t prev h1)
      (handleExtraVarChange_subset t prev AVAILABLE_EXTRA_VARS h2
        (h3 t (List.mem_cons_self t ts)))
      (fun v hv => h3 v (List.mem_cons_of_mem t hv))

/-! ## The claims -/

/-- C9: for every request `fetchPrediction` sends, the `interval_width`
field of the body equals 0.95, a hard-coded constant independent of the
component state, so the interval width is identical across all requests
this client issues. -/
theorem C9_interval_width_hardcoded (s : PredictState) :
    (requestBody s).lookup "interval_width" = some (.num (19/20)) := rfl

/-- C1 counterexample: the request body constructed from the initial
component state does not have exactly the eight fields of the request
contract — it also carries `weekly_seasonality`, which is not among the
eight. -/
theorem C1_request_fields_counterexample :
    ¬ (∀ k, k ∈ (requestBody initialPredictState).map Prod.fst ↔
        k ∈ specRequestFields) := by
  intro h
  have hmem : "weekly_seasonality" ∈
      (requestBody initialPredictState).map Prod.fst := by decide
  exact absurd ((h "weekly_seasonality").mp hmem) (by decide)

/-- C1 amended: every request `fetchPrediction` constructs is a JSON object
whose fields are exactly the contract's eight plus `weekly_seasonality` and
`daily_seasonality` (both hard-coded `false`) and `regressor_mode`
(mirroring the seasonality-mode state), in this fixed order. -/
theorem C1_request_fields_amended (s : PredictState) :
    (requestBody s).map Prod.fst =
      [ "extra_vars", "growth", "yearly_seasonality", "weekly_seasonality",
        "daily_seasonality", "seasonality_mode", "changepoint_prior_scale",
        "seasonality_prior_scale", "interval_width",
        "regressor_prior_scale", "regressor_mode" ] ∧
    (requestBody s).lookup "weekly_seasonality" = some (.bool false) ∧
    (requestBody s).lookup "daily_seasonality" = some (.bool false) ∧
    (requestBody s).lookup "regressor_mode" = some (.str s.seasonalityMode)
    := ⟨rfl, rfl, rfl, rfl⟩

/-- C10: after any finite sequence of checkbox toggles drawn from the six
offered regressor names, starting from the empty selection, the selection
is duplicate-free and a subset of `AVAILABLE_EXTRA_VARS`; hence the
`extra_vars` field of every request built from that selection is exactly
that duplicate-free subset, serialized as a string array. -/
theorem C10_selection_invariant (toggles : List String)
    (h : ∀ v ∈ toggles, v ∈ AVAILABLE_EXTRA_VARS) :
    (selectionAfter toggles).Nodup ∧
    (∀ x ∈ selectionAfter toggles, x ∈ AVAILABLE_EXTRA_VARS) ∧
    ∀ g sm : String, ∀ ys : Bool, ∀ c₁ c₂ c₃ : ℚ,
      (requestBody
        { selectedExtraVars := selectionAfter toggles, growth := g,
          yearlySeasonality := ys, seasonalityMode := sm,
          changepointPriorScale := c₁, seasonalityPriorScale := c₂,
          regressorPriorScale := c₃ }).lookup "extra_vars" =
        some (.arr ((selectionAfter toggles).map JVal.str)) := by
  obtain ⟨h1, h2⟩ := foldl_toggle_invariant toggles []
    List.nodup_nil (by intro x hx; cases hx) h
  exact ⟨h1, h2, fun _ _ _ _ _ _ => rfl⟩

/-- C10 witness: a concrete toggle sequence that selects, selects another,
then deselects, exercised through the theorem. -/
theorem C10_selection_invariant_witness :
    (∀ v ∈ ["total_population", "age_60_69", "total_population"],
      v ∈ AVAILABLE_EXTRA_VARS) ∧
    ((selectionAfter ["total_population", "age_60_69", "total_population"]).Nodup ∧
      (∀ x ∈ selectionAfter ["total_population", "age_60_69", "total_population"],
        x ∈ AVAILABLE_EXTRA_VARS) ∧
      ∀ g sm : String, ∀ ys : Bool, ∀ c₁ c₂ c₃ : ℚ,
        (requestBody
          { selectedExtraVars :=
              selectionAfter ["total_population", "age_60_69", "total_population"],
            growth := g, yearlySeasonality := ys, seasonalityMode := sm,
            changepointPriorScale := c₁, seasonalityPriorScale := c₂,
            regressorPriorScale := c₃ }).lookup "extra_vars" =
          some (.arr ((selectionAfter
            ["total_population", "age_60_69", "total_population"]).map JVal.str))) :=
  ⟨by decide, C10_selection_invariant _ (by decide)⟩

/-- A read that succeeds on every element succeeds on the array. -/
lemma mapOption_isSome {α β : Type} (f : α → Option β) :
    ∀ l : List α, (∀ a ∈ l, (f a).isSome) → (mapOption f l).isSome := by
  intro l h
  induction l with
  | nil => simp [mapOption]
  | cons a t ih =>
    obtain ⟨b, hb⟩ := Option.isSome_iff_exists.mp (h a (List.mem_cons_self a t))
    obtain ⟨bs, hbs⟩ := Option.isSome_iff_exists.mp
      (ih (fun x hx => h x (List.mem_cons_of_mem a hx)))
    simp [mapOption, hb, hbs]

/-- A string with a percent sign appended is never the literal `N/A`. -/
lemma append_percent_ne_na (s : String) : s ++ "%" ≠ "N/A" := by
  intro h
  have hd : (s ++ "%").data = "N/A".data := by rw [h]
  rw [String.data_append] at hd
  have h2 := congrArg List.getLast? hd
  rw [show ("%".data) = ['%'] from rfl] at h2
  rw [List.getLast?_concat] at h2
  simp at h2

/-- C3: a result is stored only for an ok response whose body reports
`status: "success"`; every other response leaves the result state null and
surfaces the body's truthy `message` string as the displayed error, falling
back to a fixed generic message (`HTTP error! status: ...` for a non-ok
response, `Prediction failed` for an ok response with a non-success body),
so no partial forecast data is rendered from a failure response. -/
theorem C3_failure_handling (ok : Bool) (code : Nat) (body : JVal) :
    ((fetchPrediction ok code body).result.isSome →
      ok = true ∧ statusIsSuccess body = true) ∧
    (ok = false →
      (fetchPrediction ok code body).result = none ∧
      (fetchPrediction ok code body).error =
        some ((bodyMessage body).getD
          ("HTTP error! status: " ++ toString code))) ∧
    (ok = true → statusIsSuccess body = false →
      (fetchPrediction ok code body).result = none ∧
      (fetchPrediction ok code body).error =
        some ((bodyMessage body).getD "Prediction failed")) := by
  cases ok with
  | false => simp [fetchPrediction]
  | true =>
    by_cases hs : statusIsSuccess body
    · simp [fetchPrediction, hs]
    · simp [fetchPrediction, hs]

/-- C3 witness: a 500 response whose body carries
`status: "error", message: "boom"` yields a null result and the displayed
error `boom`. -/
theorem C3_failure_handling_witness :
    (fetchPrediction false 500
      (.obj [("status", .str "error"), ("message", .str "boom")])).result
      = none ∧
    (fetchPrediction false 500
      (.obj [("status", .str "error"), ("message", .str "boom")])).error
      = some "boom" := by
  have h := (C3_failure_handling false 500
    (.obj [("status", .str "error"), ("message", .str "boom")])).2.1 rfl
  exact ⟨h.1, h.2.trans (by rfl)⟩

/-- C8: the Coverage tile shows `N/A` exactly when `cv_metrics.coverage` is
falsy — in particular a coverage of exactly 0 renders as `N/A`,
indistinguishable from an absent coverage — while every nonzero coverage
value renders as a percentage string, never `N/A`. -/
theorem C8_coverage_tile (cvm : JVal) (q : ℚ) :
    (cvm.getField "coverage" = none → coverageTile cvm = "N/A") ∧
    (cvm.getField "coverage" = some (.num 0) → coverageTile cvm = "N/A") ∧
    (cvm.getField "coverage" = some (.num q) → q ≠ 0 →
      coverageTile cvm = toFixed1 (q * 100) ++ "%" ∧
      coverageTile cvm ≠ "N/A") := by
  refine ⟨fun h => ?_, fun h => ?_, fun h hq => ?_⟩
  · simp [coverageTile, h]
  · simp [coverageTile, h, jsTruthy]
  · have hv : coverageTile cvm = toFixed1 (q * 100) ++ "%" := by
      simp [coverageTile, h, jsTruthy, hq]
    exact ⟨hv, hv ▸ append_percent_ne_na _⟩

/-- C8 witness: coverage 0 and coverage 0.9 through the theorem — the zero
coverage renders `N/A`, the nonzero one renders a percentage. -/
theorem C8_coverage_tile_witness :
    coverageTile (.obj [("coverage", .num 0)]) = "N/A" ∧
    coverageTile (.obj [("coverage", .num (1/2))]) =
      toFixed1 ((1/2) * 100) ++ "%" := by
  refine ⟨(C8_coverage_tile (.obj [("coverage", .num 0)]) 0).2.1 rfl, ?_⟩
  exact ((C8_coverage_tile (.obj [("coverage", .num (1/2))]) (1/2)).2.2 rfl
    (ne_of_gt one_half_pos)).1

/-- C6: for strictly ascending historical dates, the assembled
`forecast_data` dates are strictly ascending and duplicate-free, and the
date set is exactly the union of the historical dates and the generated
future-horizon dates. -/
theorem C6_forecast_dates (histDates : List Nat) (horizon : Nat)
    (h : histDates.Chain' (· < ·)) :
    (assembleForecastDates histDates horizon).Chain' (· < ·) ∧
    (assembleForecastDates histDates horizon).Nodup ∧
    ∀ d, d ∈ assembleForecastDates histDates horizon ↔
      (d ∈ histDates ∨
        d ∈ futureDates ((histDates.getLast?).getD 0) horizon) := by
  have hfut : (futureDates ((histDates.getLast?).getD 0) horizon).Chain'
      (· < ·) := (List.pairwise_lt_range' _ _).chain'
  have hchain : (assembleForecastDates histDates horizon).Chain' (· < ·) := by
    rw [assembleForecastDates, List.chain'_append]
    refine ⟨h, hfut, ?_⟩
    intro x hx y hy
    have hx' : (histDates.getLast?).getD 0 = x := by rw [hx]; rfl
    rcases horizon with _ | n
    · simp [futureDates] at hy
    · simp only [futureDates, List.range'] at hy
      simp only [List.head?] at hy
      rw [Option.mem_def, Option.some_inj] at hy
      omega
  have hpair : (assembleForecastDates histDates horizon).Pairwise (· < ·) :=
    List.chain'_iff_pairwise.mp hchain
  refine ⟨hchain, hpair.imp Nat.ne_of_lt, ?_⟩
  intro d
  simp [assembleForecastDates]

/-- C6 witness: three ascending historical dates and a two-period horizon,
exercised through the theorem. -/
theorem C6_forecast_dates_witness :
    ([3, 5, 9] : List Nat).Chain' (· < ·) ∧
    ((assembleForecastDates [3, 5, 9] 2).Chain' (· < ·) ∧
      (assembleForecastDates [3, 5, 9] 2).Nodup ∧
      ∀ d, d ∈ assembleForecastDates [3, 5, 9] 2 ↔
        (d ∈ [3, 5, 9] ∨
          d ∈ futureDates ((([3, 5, 9] : List Nat).getLast?).getD 0) 2)) :=
  ⟨by simp [List.chain'_cons], C6_forecast_dates [3, 5, 9] 2
    (by simp [List.chain'_cons])⟩

/-- The residual scale of a historical fit is nonnegative. -/
lemma residualScale_nonneg (hist : List (Nat × ℚ)) :
    0 ≤ residualScale hist := by
  unfold residualScale
  apply div_nonneg
  · apply List.sum_nonneg
    intro x hx
    obtain ⟨p, _, rfl⟩ := List.mem_map.mp hx
    exact abs_nonneg _
  · exact Nat.cast_nonneg _

/-- For a valid interval width, the interval half-width is nonnegative. -/
lemma halfWidthAt_nonneg (hist : List (Nat × ℚ)) (iw : ℚ)
    (lastDate d : Nat) (h0 : 0 < iw) (h1 : iw < 1) :
    0 ≤ halfWidthAt hist iw lastDate d := by
  unfold halfWidthAt
  have hdiv : 0 ≤ iw / (1 - iw) := div_nonneg h0.le (by linarith)
  have hdist : (0 : ℚ) ≤ 1 + ((d - lastDate : Nat) : ℚ) := by
    have := Nat.cast_nonneg (α := ℚ) (d - lastDate)
    linarith
  exact mul_nonneg (mul_nonneg hdiv (residualScale_nonneg hist)) hdist

/-- C5: for every forecast point of the assembled forecast data, the
invariant `lower ≤ predicted ≤ upper` holds, for any historical series and
any interval width in the open interval (0,1). -/
theorem C5_interval_invariant (hist : List (Nat × ℚ)) (iw : ℚ)
    (horizon : Nat) (h0 : 0 < iw) (h1 : iw < 1) :
    ∀ p ∈ specForecastData hist iw horizon,
      p.lower ≤ p.predicted ∧ p.predicted ≤ p.upper := by
  intro p hp
  unfold specForecastData at hp
  obtain ⟨d, _, rfl⟩ := List.mem_map.mp hp
  have hw := halfWidthAt_nonneg hist iw
    (((hist.map Prod.fst).getLast?).getD 0) d h0 h1
  constructor
  · exact sub_le_self _ hw
  · exact le_add_of_nonneg_right hw

/-- C5 witness: a two-point history with interval width one half, exercised
through the theorem. -/
theorem C5_interval_invariant_witness :
    (0 : ℚ) < 1/2 ∧ (1 : ℚ)/2 < 1 ∧
    ∀ p ∈ specForecastData [(0, 1), (1, 2)] (1/2) 1,
      p.lower ≤ p.predicted ∧ p.predicted ≤ p.upper :=
  ⟨one_half_pos, one_half_lt_one,
    C5_interval_invariant [(0, 1), (1, 2)] (1/2) 1 one_half_pos one_half_lt_one⟩

/-- C7: ConfigValidator accepts no configuration with an interval width of
0 or 1, a negative prior scale, or a regressor name unknown to SeriesStore;
when such a defect is the offending one, the rejection carries the
distinguishable error for it, with the unknown-name case failing with
`UnknownRegressor`; and the error classes of the four rejections are
pairwise distinct. -/
theorem C7_config_validator (raw : RawConfig) (known : List String) :
    ((raw.intervalWidth = 0 ∨ raw.intervalWidth = 1 ∨
      raw.changepointPriorScale < 0 ∨ raw.seasonalityPriorScale < 0 ∨
      raw.regressorPriorScale < 0 ∨
      ∃ v ∈ raw.extraRegressorNames, v ∉ known) →
      ∀ cfg, validateConfig raw known ≠ .ok cfg) ∧
    (raw.growth ∈ ["linear", "logistic"] →
      raw.seasonalityMode ∈ ["additive", "multiplicative"] →
      0 < raw.changepointPriorScale → 0 < raw.seasonalityPriorScale →
      0 < raw.regressorPriorScale →
      (((raw.intervalWidth = 0 ∨ raw.intervalWidth = 1) →
        validateConfig raw known = .error .invalidIntervalWidth) ∧
       (0 < raw.intervalWidth → raw.intervalWidth < 1 →
        ∀ v, raw.extraRegressorNames.find? (fun x => x ∉ known) = some v →
          validateConfig raw known = .error (.unknownRegressor v)))) ∧
    (raw.growth ∈ ["linear", "logistic"] →
      raw.seasonalityMode ∈ ["additive", "multiplicative"] →
      raw.changepointPriorScale < 0 →
      validateConfig raw known = .error .invalidChangepointPriorScale) ∧
    (∀ v, ValidationError.invalidIntervalWidth ≠
        ValidationError.invalidChangepointPriorScale ∧
      ValidationError.unknownRegressor v ≠
        ValidationError.invalidIntervalWidth ∧
      ValidationError.unknownRegressor v ≠
        ValidationError.invalidChangepointPriorScale) := by
  refine ⟨?_, ?_, ?_, ?_⟩
  · intro hdef cfg hok
    unfold validateConfig at hok
    split at hok
    · exact Except.noConfusion hok
    split at hok
    · exact Except.noConfusion hok
    split at hok
    · exact Except.noConfusion hok
    split at hok
    · exact Except.noConfusion hok
    split at hok
    · exact Except.noConfusion hok
    split at hok
    · exact Except.noConfusion hok
    next h1 h2 h3 h4 h5 h6 =>
      rw [not_not] at h3 h4 h5 h6
      split at hok
      · exact Except.noConfusion hok
      next hfind =>
        rcases hdef with h | h | h | h | h | ⟨v, hv, hvk⟩
        · exact absurd h6.1 (by rw [h]; exact lt_irrefl 0)
        · exact absurd h6.2 (by rw [h]; exact lt_irrefl 1)
        · exact absurd h3 (not_lt.mpr h.le)
        · exact absurd h4 (not_lt.mpr h.le)
        · exact absurd h5 (not_lt.mpr h.le)
        · have := List.find?_eq_none.mp hfind v hv
          simp at this
          exact hvk this
  · intro hg hm h3 h4 h5
    constructor
    · rintro (h | h)
      · simp [validateConfig, hg, hm, h3, h4, h5, h]
      · simp [validateConfig, hg, hm, h3, h4, h5, h]
    · intro hiw0 hiw1 v hfind
      simp only [decide_not] at hfind
      simp [validateConfig, hg, hm, h3, h4, h5, hiw0, hiw1, hfind]
  · intro hg hm hneg
    simp [validateConfig, hg, hm, not_lt.mpr hneg.le]
  · intro v
    refine ⟨by simp, by simp, by simp⟩

/-- C7 witness: the four defective configurations, exercised through the
theorem — interval width 0, interval width 1, a negative changepoint prior
scale, and a regressor name SeriesStore does not know. -/

theorem C7_config_validator_witness :
    validateConfig { baseRawConfig with intervalWidth := 0 }
        AVAILABLE_EXTRA_VARS = .error .invalidIntervalWidth ∧
    validateConfig { baseRawConfig with intervalWidth := 1 }
        AVAILABLE_EXTRA_VARS = .error .invalidIntervalWidth ∧
    validateConfig { baseRawConfig with changepointPriorScale := -1 }
        AVAILABLE_EXTRA_VARS = .error .invalidChangepointPriorScale ∧
    validateConfig
        { baseRawConfig with extraRegressorNames := ["population_density"] }
        AVAILABLE_EXTRA_VARS =
      .error (.unknownRegressor "population_density") := by
  refine ⟨?_, ?_, ?_, ?_⟩
  · exact ((C7_config_validator { baseRawConfig with intervalWidth := 0 }
      AVAILABLE_EXTRA_VARS).2.1 (by decide) (by decide) one_pos one_pos
      one_pos).1 (Or.inl rfl)
  · exact ((C7_config_validator { baseRawConfig with intervalWidth := 1 }
      AVAILABLE_EXTRA_VARS).2.1 (by decide) (by decide) one_pos one_pos
      one_pos).1 (Or.inr rfl)
  · exact (C7_config_validator
      { baseRawConfig with changepointPriorScale := -1 }
      AVAILABLE_EXTRA_VARS).2.2.1 (by decide) (by decide) neg_one_lt_zero
  · exact ((C7_config_validator
      { baseRawConfig with extraRegressorNames := ["population_density"] }
      AVAILABLE_EXTRA_VARS).2.1 (by decide) (by decide) one_pos one_pos
      one_pos).2 one_half_pos one_half_lt_one "population_density" rfl

/-- C4: the assembled components object has no `extra_regressors` entry when
no regressor is selected; when regressors are selected it has exactly one
entry per selected regressor, keyed by the selected names; and the frontend
renders the Extra Regressors tab exactly when the `extra_regressors` key is
present on `result.components`. -/
theorem C4_extra_regressors_presence (hist : List (Nat × ℚ)) (horizon : Nat)
    (ye : Bool) (yv : List CompPoint) (coef : ℚ)
    (selected : List (String × List (Nat × ℚ))) :
    (selected = [] →
      (assembleComponents hist horizon ye yv coef selected).getField
        "extra_regressors" = none) ∧
    (selected ≠ [] →
      ∃ er, (assembleComponents hist horizon ye yv coef selected).getField
          "extra_regressors" = some (.obj er) ∧
        er.map Prod.fst = selected.map Prod.fst) ∧
    (∀ res : JVal, res.getField "components" =
        some (assembleComponents hist horizon ye yv coef selected) →
      (showExtraRegressorsTab res = true ↔ selected ≠ [])) := by
  have hlookup : ∀ sel : List (String × List (Nat × ℚ)),
      (assembleComponents hist horizon ye yv coef sel).getField
          "extra_regressors" =
        if sel.isEmpty then none
        else some (.obj (sel.map (fun rv =>
          (rv.1, .arr ((regressorContribution coef rv.2).map
            CompPoint.toJVal))))) := by
    intro sel
    cases ye with
    | false => cases sel with
      | nil => rfl
      | cons a t => rfl
    | true => cases sel with
      | nil => rfl
      | cons a t => rfl
  refine ⟨?_, ?_, ?_⟩
  · intro hsel
    rw [hlookup, hsel]
    rfl
  · intro hsel
    rw [hlookup, List.isEmpty_eq_false_iff_exists_mem.mpr]
    · refine ⟨_, rfl, ?_⟩
      rw [List.map_map]
      rfl
    · cases selected with
      | nil => exact absurd rfl hsel
      | cons a t => exact ⟨a, List.mem_cons_self a t⟩
  · intro res hres
    unfold showExtraRegressorsTab
    rw [hres]
    simp only [Option.some_bind]
    rw [hlookup]
    cases selected with
    | nil => simp
    | cons a t => simp [jsTruthy]

/-- C4 witness: a request selecting no regressor and one selecting exactly
`total_population`, exercised through the theorem, together with the tab
render condition on the assembled result. -/
theorem C4_extra_regressors_presence_witness :
    (assembleComponents [(0, 1), (1, 2)] 1 true [] 1 []).getField
        "extra_regressors" = none ∧
    (∃ er, (assembleComponents [(0, 1), (1, 2)] 1 true [] 1
          [("total_population", [(0, 5), (1, 6)])]).getField
        "extra_regressors" = some (.obj er) ∧
      er.map Prod.fst = ["total_population"]) ∧
    (showExtraRegressorsTab (.obj [("components",
        assembleComponents [(0, 1), (1, 2)] 1 true [] 1
          [("total_population", [(0, 5), (1, 6)])])]) = true ↔
      ([("total_population", [(0, 5), (1, 6)])] :
        List (String × List (Nat × ℚ))) ≠ []) := by
  refine ⟨(C4_extra_regressors_presence [(0, 1), (1, 2)] 1 true [] 1 []).1
    rfl, ?_, (C4_extra_regressors_presence [(0, 1), (1, 2)] 1 true [] 1
      [("total_population", [(0, 5), (1, 6)])]).2.2 _ rfl⟩
  obtain ⟨er, h1, h2⟩ := (C4_extra_regressors_presence [(0, 1), (1, 2)] 1
    true [] 1 [("total_population", [(0, 5), (1, 6)])]).2.1
    (List.cons_ne_nil _ _)
  exact ⟨er, h1, h2.trans rfl⟩

/-- A string field test names the string it found. -/
lemma hasStrField_iff (j : JVal) (k : String) :
    hasStrField j k = true ↔ ∃ s, j.getField k = some (.str s) := by
  unfold hasStrField
  split
  next heq => exact ⟨fun _ => ⟨_, heq⟩, fun _ => rfl⟩
  next hne =>
    constructor
    · intro h; exact absurd h (by simp)
    · rintro ⟨s, hs⟩; exact absurd hs (hne s)

/-- A numeric field test names the number it found. -/
lemma hasNumField_iff (j : JVal) (k : String) :
    hasNumField j k = true ↔ ∃ q, j.getField k = some (.num q) := by
  unfold hasNumField
  split
  next heq => exact ⟨fun _ => ⟨_, heq⟩, fun _ => rfl⟩
  next hne =>
    constructor
    · intro h; exact absurd h (by simp)
    · rintro ⟨q, hq⟩; exact absurd hq (hne q)

/-- A conforming historical point reads. -/
lemma readHistPoint_isSome (j : JVal)
    (h1 : hasStrField j "date" = true) (h2 : hasNumField j "actual" = true) :
    (readHistPoint j).isSome := by
  obtain ⟨d, hd⟩ := (hasStrField_iff _ _).mp h1
  obtain ⟨a, ha⟩ := (hasNumField_iff _ _).mp h2
  unfold readHistPoint
  rw [hd, ha]
  rfl

/-- A conforming forecast point reads through `predicted`. -/
lemma readPredictedPoint_isSome (j : JVal)
    (h1 : hasStrField j "date" = true)
    (h2 : hasNumField j "predicted" = true) :
    (readPredictedPoint j).isSome := by
  obtain ⟨d, hd⟩ := (hasStrField_iff _ _).mp h1
  obtain ⟨a, ha⟩ := (hasNumField_iff _ _).mp h2
  unfold readPredictedPoint
  rw [hd, ha]
  rfl

/-- A conforming forecast point reads through `upper`. -/
lemma readUpperPoint_isSome (j : JVal)
    (h1 : hasStrField j "date" = true) (h2 : hasNumField j "upper" = true) :
    (readUpperPoint j).isSome := by
  obtain ⟨d, hd⟩ := (hasStrField_iff _ _).mp h1
  obtain ⟨a, ha⟩ := (hasNumField_iff _ _).mp h2
  unfold readUpperPoint
  rw [hd, ha]
  rfl

/-- A conforming forecast point reads through `lower`. -/
lemma readLowerPoint_isSome (j : JVal)
    (h1 : hasStrField j "date" = true) (h2 : hasNumField j "lower" = true) :
    (readLowerPoint j).isSome := by
  obtain ⟨d, hd⟩ := (hasStrField_iff _ _).mp h1
  obtain ⟨a, ha⟩ := (hasNumField_iff _ _).mp h2
  unfold readLowerPoint
  rw [hd, ha]
  rfl

/-- A conforming component point reads. -/
lemma readCompPoint_isSome (j : JVal) (h : isCompPointObj j = true) :
    (readCompPoint j).isSome := by
  rw [isCompPointObj, Bool.and_eq_true] at h
  obtain ⟨d, hd⟩ := (hasStrField_iff _ _).mp h.1
  obtain ⟨a, ha⟩ := (hasNumField_iff _ _).mp h.2
  unfold readCompPoint
  rw [hd, ha]
  rfl

/-- C2: on every success payload shaped as the §6 response contract, every
chart-layer binding of the frontend succeeds — `historical_actual` elements
through `.date`/`.actual`, `forecast_data` elements through
`.date`/`.predicted`/`.lower`/`.upper`, components through `.trend`,
`.yearly` and `.extra_regressors` as `{date, value}` sequences, and
`cv_metrics` through `.mape`/`.mae`/`.rmse`/`.coverage`; and no binding
reads any field other than the four contract fields: two payloads that
agree on them are indistinguishable to every reader. -/
theorem C2_contract_binding :
    (∀ r : JVal, conformsForecastResult r = true →
      (prepareForecastChartData r).isSome ∧
      (ciData r).isSome ∧
      (prepareComponentChartData r "trend").isSome ∧
      (((r.getField "components").bind
          (fun c => c.getField "yearly")).isSome →
        (prepareComponentChartData r "yearly").isSome) ∧
      (((r.getField "components").bind
          (fun c => c.getField "extra_regressors")).isSome →
        (extraRegressorCharts r).isSome) ∧
      (readCvMetrics r).isSome) ∧
    (∀ r₁ r₂ : JVal,
      r₁.getField "historical_actual" = r₂.getField "historical_actual" →
      r₁.getField "forecast_data" = r₂.getField "forecast_data" →
      r₁.getField "components" = r₂.getField "components" →
      r₁.getField "cv_metrics" = r₂.getField "cv_metrics" →
      prepareForecastChartData r₁ = prepareForecastChartData r₂ ∧
      ciData r₁ = ciData r₂ ∧
      (∀ name, prepareComponentChartData r₁ name =
        prepareComponentChartData r₂ name) ∧
      extraRegressorCharts r₁ = extraRegressorCharts r₂ ∧
      readCvMetrics r₁ = readCvMetrics r₂) := by
  constructor
  · intro r hc
    unfold conformsForecastResult at hc
    split at hc
    case _ ha fd comps cvm hha hfd hcomps hcvm =>
      simp only [Bool.and_eq_true] at hc
      obtain ⟨⟨⟨⟨⟨⟨⟨⟨hall_ha, hall_fd⟩, htrend⟩, hyearly⟩, her⟩,
        hmape⟩, hmae⟩, hrmse⟩, hcov⟩ := hc
      have hist_reads : ∀ j ∈ ha, (readHistPoint j).isSome := by
        intro j hj
        have h := List.all_eq_true.mp hall_ha j hj
        rw [Bool.and_eq_true] at h
        exact readHistPoint_isSome j h.1 h.2
      have fd_fields : ∀ j ∈ fd, hasStrField j "date" = true ∧
          hasNumField j "predicted" = true ∧ hasNumField j "lower" = true ∧
          hasNumField j "upper" = true := by
        intro j hj
        have h := List.all_eq_true.mp hall_fd j hj
        simp only [Bool.and_eq_true] at h
        exact ⟨h.1.1.1, h.1.1.2, h.1.2, h.2⟩
      obtain ⟨l1, hl1⟩ := Option.isSome_iff_exists.mp
        (mapOption_isSome readHistPoint ha hist_reads)
      obtain ⟨l2, hl2⟩ := Option.isSome_iff_exists.mp
        (mapOption_isSome readPredictedPoint fd (fun j hj =>
          readPredictedPoint_isSome j (fd_fields j hj).1
            (fd_fields j hj).2.1))
      obtain ⟨l3, hl3⟩ := Option.isSome_iff_exists.mp
        (mapOption_isSome readUpperPoint fd (fun j hj =>
          readUpperPoint_isSome j (fd_fields j hj).1
            (fd_fields j hj).2.2.2))
      obtain ⟨l4, hl4⟩ := Option.isSome_iff_exists.mp
        (mapOption_isSome readLowerPoint fd (fun j hj =>
          readLowerPoint_isSome j (fd_fields j hj).1
            (fd_fields j hj).2.2.1))
      refine ⟨?_, ?_, ?_, ?_, ?_, ?_⟩
      · simp [prepareForecastChartData, hha, hfd, JVal.asArr, hl1, hl2]
      · simp [ciData, hfd, JVal.asArr, hl3, hl4]
      · split at htrend
        case _ t heqt =>
          obtain ⟨lt, hlt⟩ := Option.isSome_iff_exists.mp
            (mapOption_isSome readCompPoint t (fun j hj =>
              readCompPoint_isSome j (List.all_eq_true.mp htrend j hj)))
          simp [prepareComponentChartData, hcomps, heqt, JVal.asArr, hlt]
        case _ => simp at htrend
      · intro hy
        rw [hcomps] at hy
        simp only [Option.some_bind] at hy
        split at hyearly
        case _ heqy => rw [heqy] at hy; simp at hy
        case _ y heqy =>
          obtain ⟨ly, hly⟩ := Option.isSome_iff_exists.mp
            (mapOption_isSome readCompPoint y (fun j hj =>
              readCompPoint_isSome j (List.all_eq_true.mp hyearly j hj)))
          simp [prepareComponentChartData, hcomps, heqy, JVal.asArr, hly]
        case _ => simp at hyearly
      · intro hx
        rw [hcomps] at hx
        simp only [Option.some_bind] at hx
        split at her
        case _ heqx => rw [heqx] at hx; simp at hx
        case _ er heqx =>
          have elem_reads : ∀ kv ∈ er,
              (((JVal.asArr kv.2).bind
                (fun xs => (mapOption readCompPoint xs).map
                  (fun pts => (kv.1, pts)))).isSome) := by
            intro kv hkv
            have h := List.all_eq_true.mp her kv hkv
            rcases hkv2 : kv.2 with _ | _ | _ | _ | xs | _ <;>
              rw [hkv2] at h <;> try simp at h
            obtain ⟨lx, hlx⟩ := Option.isSome_iff_exists.mp
              (mapOption_isSome readCompPoint xs (fun j hj =>
                readCompPoint_isSome j (h j hj)))
            simp [hkv2, JVal.asArr, hlx]
          obtain ⟨lx, hlx⟩ := Option.isSome_iff_exists.mp
            (mapOption_isSome _ er elem_reads)
          simp [extraRegressorCharts, hcomps, heqx, JVal.asObj, hlx]
        case _ => simp at her
      · obtain ⟨m1, hm1⟩ := (hasNumField_iff _ _).mp hmape
        obtain ⟨m2, hm2⟩ := (hasNumField_iff _ _).mp hmae
        obtain ⟨m3, hm3⟩ := (hasNumField_iff _ _).mp hrmse
        unfold readCvMetrics
        rw [hcvm]
        simp only [Option.bind_eq_bind, Option.some_bind]
        rw [hm1, hm2, hm3]
        split at hcov
        case _ => rfl
        case _ => rfl
        case _ => simp at hcov
    case _ => simp at hc
  · intro r₁ r₂ h1 h2 h3 h4
    refine ⟨?_, ?_, ?_, ?_, ?_⟩
    · unfold prepareForecastChartData
      rw [h1, h2]
    · unfold ciData
      rw [h2]
    · intro name
      unfold prepareComponentChartData
      rw [h3]
    · unfold extraRegressorCharts
      rw [h3]
    · unfold readCvMetrics
      rw [h4]

/-- C2 witness: a minimal payload of the contract shape, exercised through
the theorem, and the agreement part at the same payload padded with a field
the frontend never reads. -/
theorem C2_contract_binding_witness :
    conformsForecastResult sampleResult = true ∧
    ((prepareForecastChartData sampleResult).isSome ∧
      (ciData sampleResult).isSome ∧
      (prepareComponentChartData sampleResult "trend").isSome ∧
      (((sampleResult.getField "components").bind
          (fun c => c.getField "yearly")).isSome →
        (prepareComponentChartData sampleResult "yearly").isSome) ∧
      (((sampleResult.getField "components").bind
          (fun c => c.getField "extra_regressors")).isSome →
        (extraRegressorCharts sampleResult).isSome) ∧
      (readCvMetrics sampleResult).isSome) ∧
    (prepareForecastChartData sampleResult =
        prepareForecastChartData sampleResultPadded ∧
      ciData sampleResult = ciData sampleResultPadded ∧
      (∀ name, prepareComponentChartData sampleResult name =
        prepareComponentChartData sampleResultPadded name) ∧
      extraRegressorCharts sampleResult =
        extraRegressorCharts sampleResultPadded ∧
      readCvMetrics sampleResult = readCvMetrics sampleResultPadded) :=
  ⟨rfl, C2_contract_binding.1 sampleResult rfl,
    C2_contract_binding.2 sampleResult sampleResultPadded rfl rfl rfl rfl⟩
